import Mathlib

/-!
Shallow embedding of the kstone provider core
(`pkg/featureprovider/providers/request/request.go`, packages `request` and
`kstone`): the etcd-operator cluster provider `EtcdClusterKstone`
(Create / Update / Equal / Status / generateEtcdSpec / updateEtcdSpec) and
the feature provider `FeatureRequest` (one-time Init guard).

The remote store's unstructured documents (`map[string]interface{}` /
`unstructured.Unstructured`) are modelled by an inductive `Json` type with
association-list objects; external collaborators (the dynamic client, member
endpoint discovery, member probing) are passed in as explicit inputs, so every
operation is a pure function of the cluster, the collaborator results, and the
observed document.
-/

namespace Kstone

/-- Generic JSON-like value, the model of Go `interface{}` trees produced by
`encoding/json` and `unstructured`. Objects are association lists in the
syntactic order of the Go composite literals. -/
inductive Json where
  | null : Json
  | bool : Bool → Json
  | int : Int → Json
  | str : String → Json
  | arr : List Json → Json
  | obj : List (String × Json) → Json

/-- First value bound to key `k`, the model of Go map lookup. -/
def lookupKey : List (String × Json) → String → Option Json
  | [], _ => none
  | (k1, v) :: rest, k => if k1 = k then some v else lookupKey rest k

/-- Model of Go map assignment `m[k] = v`: replace the first binding of `k`,
or append a new binding. -/
def setEntry : List (String × Json) → String → Json → List (String × Json)
  | [], k, v => [(k, v)]
  | (k1, v1) :: rest, k, v =>
    if k1 = k then (k, v) :: rest else (k1, v1) :: setEntry rest k v

/-- Walk a path of keys through nested objects, as
`unstructured.NestedFieldNoCopy` does. -/
def Json.lookupPath : Json → List String → Option Json
  | j, [] => some j
  | Json.obj fs, k :: ks =>
    match lookupKey fs k with
    | some v => Json.lookupPath v ks
    | none => none
  | _, _ :: _ => none

/-- Model of Go map assignment on a nested object value. -/
def Json.setKey : Json → String → Json → Json
  | Json.obj fs, k, v => Json.obj (setEntry fs k v)
  | j, _, _ => j

/-- Apply `f` to the value bound to `k`, the model of mutating a nested map
obtained from a map lookup. -/
def modifyEntry : List (String × Json) → String → (Json → Json) → List (String × Json)
  | [], _, _ => []
  | (k1, v) :: rest, k, f =>
    if k1 = k then (k1, f v) :: rest else (k1, v) :: modifyEntry rest k f

/-- Variant of `modifyEntry` on an object value. -/
def Json.modifyKey : Json → String → (Json → Json) → Json
  | Json.obj fs, k, f => Json.obj (modifyEntry fs k f)
  | j, _, _ => j

/-- Model of `unstructured.NestedInt64` with the `found` / `err` results discarded:
zero on a missing or non-integer field. -/
def nestedInt64 (j : Json) (path : List String) : Int :=
  match j.lookupPath path with
  | some (Json.int n) => n
  | _ => 0

/-- Model of `unstructured.NestedString` with the `found` / `err` results discarded:
empty string on a missing or non-string field. -/
def nestedString (j : Json) (path : List String) : String :=
  match j.lookupPath path with
  | some (Json.str s) => s
  | _ => ""

/-- Model of `unstructured.NestedSlice` with the `found` / `err` results discarded:
empty list on a missing or non-array field. -/
def nestedSlice (j : Json) (path : List String) : List Json :=
  match j.lookupPath path with
  | some (Json.arr l) => l
  | _ => []

/-- Go `strings.TrimLeft(s, "v")`: remove every leading `v`. -/
def trimLeftV (s : String) : String :=
  String.mk (s.data.dropWhile (fun ch => ch == 'v'))

/-- Membership in the cutset of `strings.TrimRight(s, "Gi")`. -/
def isGiChar (ch : Char) : Bool :=
  ch == 'G' || ch == 'i'

/-- Go `strings.TrimRight(s, "Gi")`: remove every trailing `G` or `i`. -/
def trimRightGi (s : String) : String :=
  String.mk ((s.data.reverse.dropWhile isGiChar).reverse)

/-- Go `strings.TrimSpace` (restricted to ASCII whitespace, which is all the
claims exercise): drop leading and trailing whitespace characters. -/
def trimSpace (s : String) : String :=
  String.mk (((s.data.dropWhile Char.isWhitespace).reverse.dropWhile
    Char.isWhitespace).reverse)

/-- Model of `corev1.EnvVar` restricted to the fields the JSON round trips in this file
exercise: `name` (always serialized) and `value` (omitempty). -/
structure EnvVar where
  name : String
  value : String
deriving DecidableEq, Repr

/-- Model of `json.Marshal` of one `corev1.EnvVar`: `name` always, `value` only when
non-empty (its tag is `omitempty`). -/
def encodeEnvVar (v : EnvVar) : Json :=
  Json.obj (("name", Json.str v.name) ::
    (if v.value = "" then [] else [("value", Json.str v.value)]))

/-- Read a string field during `json.Unmarshal` into a struct: a missing key
or JSON null leaves the zero value, a non-string value is an unmarshal
error. -/
def getStrField (fs : List (String × Json)) (k : String) : Except String String :=
  match lookupKey fs k with
  | none => Except.ok ""
  | some Json.null => Except.ok ""
  | some (Json.str s) => Except.ok s
  | some _ => Except.error "json: cannot unmarshal field"

/-- Model of `json.Unmarshal` of one element of the observed env slice into a
`corev1.EnvVar`. -/
def decodeEnvVar : Json → Except String EnvVar
  | Json.obj fs => do
    let n ← getStrField fs "name"
    let v ← getStrField fs "value"
    Except.ok ⟨n, v⟩
  | Json.null => Except.ok ⟨"", ""⟩
  | _ => Except.error "json: cannot unmarshal element into EnvVar"

/-- The marshal / unmarshal round trip `Equal` applies to the observed
`spec.template.env` slice. -/
def decodeEnvList : List Json → Except String (List EnvVar)
  | [] => Except.ok []
  | j :: rest => do
    let v ← decodeEnvVar j
    let vs ← decodeEnvList rest
    Except.ok (v :: vs)

/-- The fields of `EtcdClusterSpec` this core reads. Go renders the numeric
fields with `strconv.Itoa` / `fmt.Sprintf("%d", ·)` after converting to a
non-negative machine integer, modelled by `Nat`. -/
structure ClusterSpec where
  size : Nat
  version : String
  diskSize : Nat
  totalCpu : Nat
  totalMem : Nat
  env : List EnvVar
deriving DecidableEq

/-- The `kstoneapiv1.EtcdClusterPhase` values used by this core. -/
inductive EtcdClusterPhase where
  | creating
  | updating
  | running
  | unknown
deriving DecidableEq, Repr

/-- One entry of `status.Members`; its contents are produced by the external
member-status collaborator and never inspected by this core. -/
structure MemberStat where
  name : String
  healthy : Bool
deriving DecidableEq

/-- The fields of `EtcdClusterStatus` that `Status` touches. -/
structure EtcdStatus where
  phase : EtcdClusterPhase
  serviceName : String
  members : List MemberStat
deriving DecidableEq

/-- The cluster resource handed to the provider: metadata, label and
annotation maps (association lists), desired-state spec and prior status. -/
structure EtcdCluster where
  name : String
  ns : String
  labels : List (String × String)
  annotations : List (String × String)
  spec : ClusterSpec
  status : EtcdStatus
deriving DecidableEq

/-- Association-list lookup for the string maps on the cluster resource. -/
def lookupStr : List (String × String) → String → Option String
  | [], _ => none
  | (k1, v) :: rest, k => if k1 = k then some v else lookupStr rest k

/-- Go map read `m[k]` on a `map[string]string`: empty string when absent. -/
def annoGetD (l : List (String × String)) (k : String) : String :=
  (lookupStr l k).getD ""

/-- The annotation key `AnnoImportedURI = "importedAddr"`. -/
def AnnoImportedURI : String := "importedAddr"

/-- Go `strings.Split(s, ",")` on the character list: the empty string yields
one empty field, every comma opens a new field. -/
def splitCommaChars : List Char → List (List Char)
  | [] => [[]]
  | c :: rest =>
    let r := splitCommaChars rest
    if c = ',' then [] :: r
    else
      match r with
      | h :: t => (c :: h) :: t
      | [] => [[c]]

/-- Go `strings.Split(s, ",")`. -/
def splitComma (s : String) : List String :=
  (splitCommaChars s.data).map String.mk

/-- Lines 406-417 of `generateEtcdSpec`: split the `extraServerCertSANs`
annotation on commas, trim each entry, drop empty entries. -/
def parseSANs (s : String) : List String :=
  ((splitComma s).map trimSpace).filter (fun t => t ≠ "")

/-- `generateEtcdSpec`: synthesize the declarative `spec` document from the
cluster descriptor. Mirrors the Go composite literal field for field; the
`scheme == "https"` branch then adds the `secure` subtree and replaces
`template.extraArgs`. -/
def generateEtcdSpec (c : EtcdCluster) : Json :=
  let sanList := parseSANs (annoGetD c.annotations "extraServerCertSANs")
  let sanJson : Json :=
    if sanList.isEmpty then Json.null else Json.arr (sanList.map Json.str)
  let labels := Json.obj (c.labels.map (fun kv => (kv.1, Json.str kv.2)))
  let annots := Json.obj (c.annotations.map (fun kv => (kv.1, Json.str kv.2)))
  let env := Json.arr (c.spec.env.map encodeEnvVar)
  let baseSpec := Json.obj [
    ("size", Json.int (c.spec.size : Int)),
    ("version", Json.str c.spec.version),
    ("template", Json.obj [
      ("extraArgs", Json.arr [Json.str "logger=zap"]),
      ("labels", labels),
      ("annotations", annots),
      ("env", env),
      ("persistentVolumeClaimSpec", Json.obj [
        ("accessModes", Json.arr [Json.str "ReadWriteOnce"]),
        ("resources", Json.obj [
          ("requests", Json.obj [
            ("storage", Json.str (Nat.repr c.spec.diskSize ++ "Gi"))])])]),
      ("resources", Json.obj [
        ("requests", Json.obj [
          ("cpu", Json.str (Nat.repr c.spec.totalCpu)),
          ("memory", Json.str (Nat.repr c.spec.totalMem ++ "Gi"))]),
        ("limits", Json.obj [
          ("cpu", Json.str (Nat.repr c.spec.totalCpu)),
          ("memory", Json.str (Nat.repr c.spec.totalMem ++ "Gi"))])])])]
  if annoGetD c.annotations "scheme" = "https" then
    let withSecure := baseSpec.setKey "secure" (Json.obj [
      ("tls", Json.obj [
        ("autoTLSCert", Json.obj [
          ("autoGenerateClientCert", Json.bool true),
          ("autoGeneratePeerCert", Json.bool true),
          ("autoGenerateServerCert", Json.bool true),
          ("extraServerCertSANs", sanJson)])])])
    withSecure.modifyKey "template" (fun t =>
      t.setKey "extraArgs"
        (Json.arr [Json.str "logger=zap", Json.str "client-cert-auth=true"]))
  else baseSpec

/-- Errors returned by the remote store, distinguishable the way
`k8s.io/apimachinery` error predicates distinguish them. -/
inductive StoreErr where
  | alreadyExists
  | notFound
  | transport : String → StoreErr
deriving DecidableEq, Repr

/-- Model of `errors.IsAlreadyExists`. -/
def isAlreadyExists : StoreErr → Bool
  | StoreErr.alreadyExists => true
  | _ => false

/-- The `unstructured` request body built by `Create`. -/
def createRequest (c : EtcdCluster) : Json :=
  Json.obj [
    ("apiVersion", Json.str "etcd.tkestack.io/v1alpha1"),
    ("kind", Json.str "EtcdCluster"),
    ("metadata", Json.obj [
      ("name", Json.str c.name),
      ("namespace", Json.str c.ns)]),
    ("spec", generateEtcdSpec c)]

/-- Model of `Create`: set the owner reference (propagating its error), then submit the
request document once to the remote store. `store` is the dynamic client's
create call, indexed by how many create calls were already issued, so that
"no retry" is visible: only call 0 is ever consulted. An already-exists
outcome is success; any other store error is returned as is. -/
def Create (c : EtcdCluster) (ownerRefErr : Option StoreErr)
    (store : Nat → Json → Option StoreErr) : Option StoreErr :=
  match ownerRefErr with
  | some e => some e
  | none =>
    match store 0 (createRequest c) with
    | some e => if isAlreadyExists e then none else some e
    | none => none

/-- The six observed values `Equal` extracts from the fetched document. -/
structure Observed where
  size : Int
  version : String
  storage : String
  cpu : String
  memory : String
  env : List Json

/-- Field extraction performed by `Equal` on the fetched document, with the
exact `unstructured` paths of the Go code. -/
def observedOf (etcd : Json) : Observed where
  size := nestedInt64 etcd ["spec", "size"]
  version := nestedString etcd ["spec", "version"]
  storage := nestedString etcd
    ["spec", "template", "persistentVolumeClaimSpec", "resources", "requests", "storage"]
  cpu := nestedString etcd ["spec", "template", "resources", "requests", "cpu"]
  memory := nestedString etcd ["spec", "template", "resources", "requests", "memory"]
  env := nestedSlice etcd ["spec", "template", "env"]

/-- The comparison cascade of `Equal` (lines 258-321): size, version (leading
`v` stripped from both sides), storage (trailing `Gi` stripped), cpu, memory
(trailing `Gi` stripped), then the env slice after its marshal / unmarshal
round trip, with empty-vs-empty accepted before the deep comparison. -/
def equalFields (s : ClusterSpec) (o : Observed) : Bool × Option String :=
  if (s.size : Int) ≠ o.size then (false, none)
  else if trimLeftV o.version ≠ trimLeftV s.version then (false, none)
  else if trimRightGi o.storage ≠ Nat.repr s.diskSize then (false, none)
  else if o.cpu ≠ Nat.repr s.totalCpu then (false, none)
  else if trimRightGi o.memory ≠ Nat.repr s.totalMem then (false, none)
  else
    match decodeEnvList o.env with
    | Except.error e => (true, some e)
    | Except.ok oldEnv =>
      if oldEnv = [] ∧ s.env = [] then (true, none)
      else if oldEnv ≠ s.env then (false, none)
      else (true, none)

/-- Model of `Equal`: fetch the observed document (a failed fetch returns equal
together with the error), then run the comparison cascade. -/
def Equal (s : ClusterSpec) (getResult : Except String Json) : Bool × Option String :=
  match getResult with
  | Except.error e => (true, some e)
  | Except.ok etcd => equalFields s (observedOf etcd)

/-- Model of `updateEtcdSpec`: abort with `"get spec error"` unless the fetched
document has a well-shaped `spec` object subtree (`unstructured.NestedMap`
errors on a missing key or a non-map value), then overwrite the whole `spec`
entry with the freshly synthesized document. -/
def updateEtcdSpec (c : EtcdCluster) (etcdObj : List (String × Json)) :
    Except String (List (String × Json)) :=
  match lookupKey etcdObj "spec" with
  | some (Json.obj _) => Except.ok (setEntry etcdObj "spec" (generateEtcdSpec c))
  | _ => Except.error "get spec error"

/-- Model of `Update`: fetch the observed document, rewrite its `spec` subtree, submit
the rewritten document. The first component reports which document (if any)
was submitted to the store's update call; `updateErr` is that call's
result. -/
def Update (c : EtcdCluster) (getResult : Except String (List (String × Json)))
    (updateErr : Option String) :
    Option (List (String × Json)) × Option String :=
  match getResult with
  | Except.error e => (none, some e)
  | Except.ok etcd =>
    match updateEtcdSpec c etcd with
    | Except.error e => (none, some e)
    | Except.ok newEtcd => (some newEtcd, updateErr)

/-- Results of the external collaborators `Status` consults: endpoint
discovery (`GetStorageMemberEndpoints`), the member probe
(`GetRuntimeEtcdMembers`, a member list and an error), and the member status
aggregation (`GetEtcdClusterMemberStatus`, member statuses and a candidate
phase). -/
structure StatusExt where
  endpoints : List String
  probeErr : Option String
  probeMembers : List String
  memberStats : List MemberStat
  memberPhase : EtcdClusterPhase

/-- Lines 368-384 of `Status`: the probe and the two hysteresis guards. -/
def statusProbe (c : EtcdCluster) (status : EtcdStatus) (ext : StatusExt) :
    EtcdStatus × Option String :=
  if ext.probeErr.isSome ∨ ext.probeMembers.length = 0 ∨
      c.spec.size ≠ ext.probeMembers.length then
    (if status.phase = EtcdClusterPhase.running then
      { status with phase := EtcdClusterPhase.unknown }
     else status,
     ext.probeErr)
  else
    let status1 := { status with members := ext.memberStats }
    let status2 :=
      if status1.phase = EtcdClusterPhase.running ∨
          ext.memberPhase ≠ EtcdClusterPhase.unknown then
        { status1 with phase := ext.memberPhase }
      else status1
    (status2, ext.probeErr)

/-- Model of `Status`: resolve endpoints; with none and no imported-address annotation
report `Creating` and return early, with none but the annotation present probe
the imported address (recording it as the service name), otherwise probe the
discovered endpoints. -/
def Status (c : EtcdCluster) (ext : StatusExt) : EtcdStatus × Option String :=
  let status := c.status
  if ext.endpoints.isEmpty then
    match lookupStr c.annotations AnnoImportedURI with
    | some addr => statusProbe c { status with serviceName := addr } ext
    | none => ({ status with phase := EtcdClusterPhase.creating }, none)
  else
    statusProbe c status ext

/-- State of a `FeatureRequest`: whether its `sync.Once` has fired, and how
many times the initialization body has run. -/
structure FeatureRequestState where
  onceDone : Bool
  initRuns : Nat
deriving DecidableEq, Repr

/-- Model of `FeatureRequest.Init`: `err` starts nil each call; `once.Do` runs the body
(which stores the inner initialization result in `err`) only when the guard
has not fired yet, and consumes the guard whether or not that result was an
error. `innerResult` is what `inspection.Init()` would return on this call. -/
def FRInit (s : FeatureRequestState) (innerResult : Option String) :
    FeatureRequestState × Option String :=
  if s.onceDone then (s, none)
  else ({ onceDone := true, initRuns := s.initRuns + 1 }, innerResult)

example : trimLeftV "v3.5.0" = "3.5.0" := by decide
example : trimRightGi "10Gi" = "10" := by decide
example : trimSpace " b.example.com " = "b.example.com" := by decide
example : decodeEnvList [Json.int 1] = Except.error "json: cannot unmarshal element into EnvVar" := rfl
example : decodeEnvVar (encodeEnvVar ⟨"A", ""⟩) = Except.ok ⟨"A", ""⟩ := rfl

def sampleTLSCluster : EtcdCluster :=
  { name := "a", ns := "default",
    labels := [],
    annotations := [("scheme", "https"), ("extraServerCertSANs", "a.example.com, b.example.com ")],
    spec := { size := 3, version := "v3.5.0", diskSize := 10, totalCpu := 2, totalMem := 4, env := [] },
    status := { phase := EtcdClusterPhase.running, serviceName := "", members := [] } }

example : Json.lookupPath (generateEtcdSpec sampleTLSCluster) ["secure", "tls", "autoTLSCert", "extraServerCertSANs"]
    = some (Json.arr [Json.str "a.example.com", Json.str "b.example.com"]) := rfl

example : parseSANs "  ,  " = [] := by decide

example : (Status sampleTLSCluster ⟨[], some "boom", [], [], EtcdClusterPhase.unknown⟩).1.phase
    = EtcdClusterPhase.creating := by decide

def sampleImportedCluster : EtcdCluster :=
  { sampleTLSCluster with annotations := ("importedAddr", "https://a-etcd.default.svc:2379") :: sampleTLSCluster.annotations }

example : (Status sampleImportedCluster ⟨[], some "boom", [], [], EtcdClusterPhase.unknown⟩).1.phase
    = EtcdClusterPhase.unknown := by decide

theorem lookupKey_setEntry (l : List (String × Json)) (k : String) (v : Json) :
    lookupKey (setEntry l k v) k = some v := by
  induction l with
  | nil => simp [setEntry, lookupKey]
  | cons hd tl ih =>
    obtain ⟨k1, v1⟩ := hd
    by_cases h : k1 = k
    · simp [setEntry, lookupKey, h]
    · simp [setEntry, lookupKey, h, ih]

/-- C9: if the first call to `FeatureRequest.Init` fails, the failure is
reported once, the `sync.Once` guard is consumed by the failed attempt, and
every later call returns nil without re-running the initialization body. -/
theorem frInit_failed_guard_consumed :
    (∀ e : String, FRInit ⟨false, 0⟩ (some e) = (⟨true, 1⟩, some e)) ∧
    (∀ s : FeatureRequestState, s.onceDone = true →
      ∀ r : Option String, FRInit s r = (s, none)) := by
  constructor
  · intro e; rfl
  · intro s hs r
    simp [FRInit, hs]

theorem frInit_failed_guard_consumed_witness :
    FRInit ⟨false, 0⟩ (some "dial tcp: connection refused") =
      (⟨true, 1⟩, some "dial tcp: connection refused") ∧
    FRInit ⟨true, 1⟩ (some "dial tcp: connection refused") = (⟨true, 1⟩, none) :=
  ⟨frInit_failed_guard_consumed.1 "dial tcp: connection refused",
   frInit_failed_guard_consumed.2 ⟨true, 1⟩ rfl (some "dial tcp: connection refused")⟩

/-- C5: `Create` submits the synthesized document (the request's `spec` entry
is exactly `generateEtcdSpec`), treats an already-exists outcome as success,
returns every other store error unmodified, and never retries: the result
depends only on the store's first create call. -/
theorem create_tolerates_already_exists (c : EtcdCluster)
    (store store2 : Nat → Json → Option StoreErr) :
    Json.lookupPath (createRequest c) ["spec"] = some (generateEtcdSpec c) ∧
    (store 0 (createRequest c) = some StoreErr.alreadyExists →
      Create c none store = none) ∧
    (∀ e : StoreErr, e ≠ StoreErr.alreadyExists →
      store 0 (createRequest c) = some e → Create c none store = some e) ∧
    (store 0 (createRequest c) = none → Create c none store = none) ∧
    ((∀ j : Json, store 0 j = store2 0 j) →
      Create c none store = Create c none store2) := by
  refine ⟨?_, ?_, ?_, ?_, ?_⟩
  · simp [createRequest, Json.lookupPath, lookupKey]
  · intro h
    simp [Create, h, isAlreadyExists]
  · intro e hne h
    cases e with
    | alreadyExists => exact absurd rfl hne
    | notFound => simp [Create, h, isAlreadyExists]
    | transport m => simp [Create, h, isAlreadyExists]
  · intro h
    simp [Create, h]
  · intro hsame
    simp [Create, hsame (createRequest c)]

theorem create_tolerates_already_exists_witness :
    Create sampleTLSCluster none (fun _ _ => some StoreErr.alreadyExists) = none ∧
    Create sampleTLSCluster none (fun _ _ => some (StoreErr.transport "boom")) =
      some (StoreErr.transport "boom") ∧
    Create sampleTLSCluster none (fun _ _ => none) = none :=
  ⟨(create_tolerates_already_exists sampleTLSCluster
      (fun _ _ => some StoreErr.alreadyExists) (fun _ _ => none)).2.1 rfl,
   (create_tolerates_already_exists sampleTLSCluster
      (fun _ _ => some (StoreErr.transport "boom")) (fun _ _ => none)).2.2.1
      (StoreErr.transport "boom") (by decide) rfl,
   (create_tolerates_already_exists sampleTLSCluster
      (fun _ _ => none) (fun _ _ => none)).2.2.2.1 rfl⟩

/-- C8: `Update` aborts with an error and submits no update request when the
fetched document's `spec` subtree is missing or not an object; otherwise the
submitted document's whole `spec` entry is the freshly synthesized spec. -/
theorem update_overwrites_spec_wholesale (c : EtcdCluster) :
    (∀ (etcd : List (String × Json)) (ue : Option String),
      (∀ fs : List (String × Json), lookupKey etcd "spec" ≠ some (Json.obj fs)) →
      Update c (Except.ok etcd) ue = (none, some "get spec error")) ∧
    (∀ (etcd fs : List (String × Json)) (ue : Option String),
      lookupKey etcd "spec" = some (Json.obj fs) →
      (Update c (Except.ok etcd) ue).1 =
        some (setEntry etcd "spec" (generateEtcdSpec c)) ∧
      lookupKey (setEntry etcd "spec" (generateEtcdSpec c)) "spec" =
        some (generateEtcdSpec c)) := by
  constructor
  · intro etcd ue hbad
    unfold Update updateEtcdSpec
    cases hlk : lookupKey etcd "spec" with
    | none => simp [hlk]
    | some v =>
      cases v with
      | obj fs => exact absurd hlk (hbad fs)
      | null => simp [hlk]
      | bool b => simp [hlk]
      | int n => simp [hlk]
      | str s => simp [hlk]
      | arr l => simp [hlk]
  · intro etcd fs ue hlk
    refine ⟨?_, lookupKey_setEntry etcd "spec" (generateEtcdSpec c)⟩
    unfold Update updateEtcdSpec
    simp [hlk]

theorem update_overwrites_spec_wholesale_witness :
    Update sampleTLSCluster (Except.ok [("status", Json.obj [])]) none =
      (none, some "get spec error") ∧
    (Update sampleTLSCluster
        (Except.ok [("spec", Json.obj [("size", Json.int 1)])]) none).1 =
      some (setEntry [("spec", Json.obj [("size", Json.int 1)])] "spec"
        (generateEtcdSpec sampleTLSCluster)) := by
  constructor
  · exact (update_overwrites_spec_wholesale sampleTLSCluster).1
      [("status", Json.obj [])] none (by intro fs; simp [lookupKey])
  · exact ((update_overwrites_spec_wholesale sampleTLSCluster).2
      [("spec", Json.obj [("size", Json.int 1)])] [("size", Json.int 1)] none
      (by simp [lookupKey])).1

/-- C10: a failed fetch of the observed document, and a failed re-encode /
decode of the observed env slice (reached when the five scalar fields match),
both make `Equal` report equal together with the error. -/
theorem equal_error_biases_to_equal (s : ClusterSpec) :
    (∀ e : String, Equal s (Except.error e) = (true, some e)) ∧
    (∀ (o : Observed) (e : String),
      (s.size : Int) = o.size →
      trimLeftV o.version = trimLeftV s.version →
      trimRightGi o.storage = Nat.repr s.diskSize →
      o.cpu = Nat.repr s.totalCpu →
      trimRightGi o.memory = Nat.repr s.totalMem →
      decodeEnvList o.env = Except.error e →
      equalFields s o = (true, some e)) := by
  constructor
  · intro e; rfl
  · intro o e h1 h2 h3 h4 h5 h6
    simp [equalFields, h1, h2, h3, h4, h5, h6]

theorem equal_error_biases_to_equal_witness :
    Equal ⟨3, "v3.5.0", 10, 2, 4, []⟩ (Except.error "connection refused") =
      (true, some "connection refused") ∧
    equalFields ⟨3, "v3.5.0", 10, 2, 4, []⟩ ⟨3, "3.5.0", "10Gi", "2", "4Gi", [Json.int 7]⟩ =
      (true, some "json: cannot unmarshal element into EnvVar") :=
  ⟨(equal_error_biases_to_equal ⟨3, "v3.5.0", 10, 2, 4, []⟩).1 "connection refused",
   (equal_error_biases_to_equal ⟨3, "v3.5.0", 10, 2, 4, []⟩).2
     ⟨3, "3.5.0", "10Gi", "2", "4Gi", [Json.int 7]⟩
     "json: cannot unmarshal element into EnvVar"
     (by decide) (by decide) (by decide) (by decide) (by decide) rfl⟩

/-- C1: the comparison cascade of `Equal` checks size, version, storage, cpu,
memory, then env, in that order, and short-circuits: a mismatch at one field
forces a not-equal result whatever the values of every later field, and when
every field matches the result is equal. -/
theorem equal_field_order_short_circuit (s : ClusterSpec) :
    (∀ sz : Int, (s.size : Int) ≠ sz →
      ∀ (v st cp m : String) (e : List Json),
        equalFields s ⟨sz, v, st, cp, m, e⟩ = (false, none)) ∧
    (∀ (sz : Int) (v : String), (s.size : Int) = sz →
      trimLeftV v ≠ trimLeftV s.version →
      ∀ (st cp m : String) (e : List Json),
        equalFields s ⟨sz, v, st, cp, m, e⟩ = (false, none)) ∧
    (∀ (sz : Int) (v st : String), (s.size : Int) = sz →
      trimLeftV v = trimLeftV s.version →
      trimRightGi st ≠ Nat.repr s.diskSize →
      ∀ (cp m : String) (e : List Json),
        equalFields s ⟨sz, v, st, cp, m, e⟩ = (false, none)) ∧
    (∀ (sz : Int) (v st cp : String), (s.size : Int) = sz →
      trimLeftV v = trimLeftV s.version →
      trimRightGi st = Nat.repr s.diskSize →
      cp ≠ Nat.repr s.totalCpu →
      ∀ (m : String) (e : List Json),
        equalFields s ⟨sz, v, st, cp, m, e⟩ = (false, none)) ∧
    (∀ (sz : Int) (v st cp m : String), (s.size : Int) = sz →
      trimLeftV v = trimLeftV s.version →
      trimRightGi st = Nat.repr s.diskSize →
      cp = Nat.repr s.totalCpu →
      trimRightGi m ≠ Nat.repr s.totalMem →
      ∀ e : List Json, equalFields s ⟨sz, v, st, cp, m, e⟩ = (false, none)) ∧
    (∀ (sz : Int) (v st cp m : String) (e : List Json) (l : List EnvVar),
      (s.size : Int) = sz →
      trimLeftV v = trimLeftV s.version →
      trimRightGi st = Nat.repr s.diskSize →
      cp = Nat.repr s.totalCpu →
      trimRightGi m = Nat.repr s.totalMem →
      decodeEnvList e = Except.ok l →
      ¬(l = [] ∧ s.env = []) → l ≠ s.env →
      equalFields s ⟨sz, v, st, cp, m, e⟩ = (false, none)) ∧
    (∀ (sz : Int) (v st cp m : String) (e : List Json) (l : List EnvVar),
      (s.size : Int) = sz →
      trimLeftV v = trimLeftV s.version →
      trimRightGi st = Nat.repr s.diskSize →
      cp = Nat.repr s.totalCpu →
      trimRightGi m = Nat.repr s.totalMem →
      decodeEnvList e = Except.ok l →
      ((l = [] ∧ s.env = []) ∨ l = s.env) →
      equalFields s ⟨sz, v, st, cp, m, e⟩ = (true, none)) := by
  refine ⟨?_, ?_, ?_, ?_, ?_, ?_, ?_⟩
  · intro sz h1 v st cp m e
    simp [equalFields, h1]
  · intro sz v h1 h2 st cp m e
    simp [equalFields, h1, h2]
  · intro sz v st h1 h2 h3 cp m e
    simp [equalFields, h1, h2, h3]
  · intro sz v st cp h1 h2 h3 h4 m e
    simp [equalFields, h1, h2, h3, h4]
  · intro sz v st cp m h1 h2 h3 h4 h5 e
    simp [equalFields, h1, h2, h3, h4, h5]
  · intro sz v st cp m e l h1 h2 h3 h4 h5 hd hne hd2
    simp [equalFields, h1, h2, h3, h4, h5, hd, hne, hd2]
  · intro sz v st cp m e l h1 h2 h3 h4 h5 hd hok
    rcases hok with ⟨hl, hs⟩ | heq
    · simp [equalFields, h1, h2, h3, h4, h5, hd, hl, hs]
    · by_cases hb : l = [] ∧ s.env = []
      · simp [equalFields, h1, h2, h3, h4, h5, hd, hb.1, hb.2]
      · simp [equalFields, h1, h2, h3, h4, h5, hd, hb, heq]

theorem equal_field_order_short_circuit_witness :
    equalFields ⟨3, "v3.5.0", 10, 2, 4, []⟩ ⟨4, "bad", "bad", "bad", "bad", [Json.int 7]⟩ =
      (false, none) ∧
    equalFields ⟨3, "v3.5.0", 10, 2, 4, []⟩ ⟨3, "3.5.0", "bad", "bad", "bad", [Json.int 7]⟩ =
      (false, none) ∧
    equalFields ⟨3, "v3.5.0", 10, 2, 4, []⟩ ⟨3, "3.5.0", "10Gi", "2", "4Gi", []⟩ =
      (true, none) :=
  ⟨(equal_field_order_short_circuit ⟨3, "v3.5.0", 10, 2, 4, []⟩).1 4
      (by decide) "bad" "bad" "bad" "bad" [Json.int 7],
   (equal_field_order_short_circuit ⟨3, "v3.5.0", 10, 2, 4, []⟩).2.2.1 3 "3.5.0"
      "bad" (by decide) (by decide) (by decide) "bad" "bad" [Json.int 7],
   (equal_field_order_short_circuit ⟨3, "v3.5.0", 10, 2, 4, []⟩).2.2.2.2.2.2 3
      "3.5.0" "10Gi" "2" "4Gi" [] [] (by decide) (by decide) (by decide)
      (by decide) (by decide) rfl (Or.inl ⟨rfl, rfl⟩)⟩

theorem status_dispatch (c : EtcdCluster) (ext : StatusExt)
    (hnc : ext.endpoints ≠ [] ∨ lookupStr c.annotations AnnoImportedURI ≠ none) :
    ∃ st : EtcdStatus, Status c ext = statusProbe c st ext ∧
      st.phase = c.status.phase := by
  unfold Status
  by_cases he : ext.endpoints.isEmpty
  · cases hlk : lookupStr c.annotations AnnoImportedURI with
    | none =>
      rcases hnc with h | h
      · exact absurd (List.isEmpty_iff.mp he) h
      · exact absurd hlk h
    | some addr =>
      exact ⟨{ c.status with serviceName := addr }, by simp [he, hlk], rfl⟩
  · exact ⟨c.status, by simp [he], rfl⟩

theorem statusProbe_err (c : EtcdCluster) (st : EtcdStatus) (ext : StatusExt) :
    (statusProbe c st ext).2 = ext.probeErr := by
  unfold statusProbe
  split
  · rfl
  · rfl

/-- C2: hysteresis in `Status`. On a failed probe, an empty member list, or a
member count different from the declared size, the previous phase is replaced
by Unknown exactly when it was Running (any other phase is kept) and the probe
error is returned; on a successful probe the candidate phase replaces the
previous phase exactly when the previous phase was Running or the candidate is
not Unknown. -/
theorem status_phase_hysteresis (c : EtcdCluster) (ext : StatusExt)
    (hnc : ext.endpoints ≠ [] ∨ lookupStr c.annotations AnnoImportedURI ≠ none) :
    ((ext.probeErr ≠ none ∨ ext.probeMembers = [] ∨
        c.spec.size ≠ ext.probeMembers.length) →
      (Status c ext).1.phase =
        (if c.status.phase = EtcdClusterPhase.running then EtcdClusterPhase.unknown
         else c.status.phase) ∧
      (Status c ext).2 = ext.probeErr) ∧
    (ext.probeErr = none → ext.probeMembers ≠ [] →
      c.spec.size = ext.probeMembers.length →
      (Status c ext).1.phase =
        (if c.status.phase = EtcdClusterPhase.running ∨
            ext.memberPhase ≠ EtcdClusterPhase.unknown then ext.memberPhase
         else c.status.phase)) := by
  obtain ⟨st, heq, hph⟩ := status_dispatch c ext hnc
  rw [heq]
  constructor
  · intro hcond
    have hcond2 : ext.probeErr.isSome ∨ ext.probeMembers.length = 0 ∨
        c.spec.size ≠ ext.probeMembers.length := by
      rcases hcond with h | h | h
      · exact Or.inl (Option.isSome_iff_ne_none.mpr h)
      · exact Or.inr (Or.inl (by simp [h]))
      · exact Or.inr (Or.inr h)
    unfold statusProbe
    rw [if_pos hcond2]
    refine ⟨?_, rfl⟩
    by_cases hr : c.status.phase = EtcdClusterPhase.running
    · simp [hph, hr]
    · simp [hph, hr]
  · intro h1 h2 h3
    have hcond2 : ¬(ext.probeErr.isSome ∨ ext.probeMembers.length = 0 ∨
        c.spec.size ≠ ext.probeMembers.length) := by
      rintro (h | h | h)
      · rw [h1] at h; exact absurd h (by simp)
      · exact absurd (List.length_eq_zero.mp h) h2
      · exact absurd h3 h
    unfold statusProbe
    rw [if_neg hcond2]
    by_cases hc : c.status.phase = EtcdClusterPhase.running ∨
        ext.memberPhase ≠ EtcdClusterPhase.unknown
    · simp [hph, hc]
    · simp [hph, hc]

theorem status_phase_hysteresis_witness :
    (Status sampleTLSCluster
        ⟨["http://m0:2379"], some "context deadline exceeded", [], [],
          EtcdClusterPhase.unknown⟩).1.phase = EtcdClusterPhase.unknown ∧
    (Status sampleTLSCluster
        ⟨["http://m0:2379"], some "context deadline exceeded", [], [],
          EtcdClusterPhase.unknown⟩).2 = some "context deadline exceeded" ∧
    (Status sampleTLSCluster
        ⟨["http://m0:2379"], none, ["m0", "m1", "m2"],
          [⟨"m0", true⟩, ⟨"m1", true⟩, ⟨"m2", true⟩],
          EtcdClusterPhase.running⟩).1.phase = EtcdClusterPhase.running := by
  have h1 := (status_phase_hysteresis sampleTLSCluster
    ⟨["http://m0:2379"], some "context deadline exceeded", [], [],
      EtcdClusterPhase.unknown⟩ (Or.inl (by decide))).1
    (Or.inl (by decide))
  have h2 := (status_phase_hysteresis sampleTLSCluster
    ⟨["http://m0:2379"], none, ["m0", "m1", "m2"],
      [⟨"m0", true⟩, ⟨"m1", true⟩, ⟨"m2", true⟩],
      EtcdClusterPhase.running⟩ (Or.inl (by decide))).2
    rfl (by decide) (by decide)
  refine ⟨?_, h1.2, ?_⟩
  · rw [h1.1]; decide
  · rw [h2]; decide

/-- C4 counterexample: a cluster whose discovered member endpoint set is empty
but which carries the imported-address annotation; `Status` probes the
imported address instead of reporting `Creating` — here the probe fails and
the Running phase degrades to Unknown with the probe error returned, so the
claimed early `Creating` return does not happen. -/
theorem status_creating_counterexample :
    (StatusExt.mk [] (some "probe failed") [] [] EtcdClusterPhase.unknown).endpoints
      = [] ∧
    (Status sampleImportedCluster
        ⟨[], some "probe failed", [], [], EtcdClusterPhase.unknown⟩).1.phase =
      EtcdClusterPhase.unknown ∧
    EtcdClusterPhase.unknown ≠ EtcdClusterPhase.creating ∧
    (Status sampleImportedCluster
        ⟨[], some "probe failed", [], [], EtcdClusterPhase.unknown⟩).2 =
      some "probe failed" := by
  refine ⟨rfl, by decide, by decide, by decide⟩

/-- C4 (amended): when the discovered member endpoint set is empty and the
imported-address annotation is absent, `Status` reports `Creating` and returns
early with no error, untouched by any probe result; on every other path the
probe outcome is propagated to the caller. -/
theorem status_creating_early_return (c : EtcdCluster) :
    (lookupStr c.annotations AnnoImportedURI = none →
      ∀ (pe : Option String) (pm : List String) (ms : List MemberStat)
        (mp : EtcdClusterPhase),
        Status c ⟨[], pe, pm, ms, mp⟩ =
          ({ c.status with phase := EtcdClusterPhase.creating }, none)) ∧
    (∀ ext : StatusExt,
      ext.endpoints ≠ [] ∨ lookupStr c.annotations AnnoImportedURI ≠ none →
      (Status c ext).2 = ext.probeErr) := by
  constructor
  · intro h pe pm ms mp
    simp [Status, h]
  · intro ext hnc
    obtain ⟨st, heq, hph⟩ := status_dispatch c ext hnc
    rw [heq]
    exact statusProbe_err c st ext

theorem status_creating_early_return_witness :
    Status sampleTLSCluster ⟨[], some "probe failed", ["m0"], [⟨"m0", true⟩],
        EtcdClusterPhase.running⟩ =
      ({ sampleTLSCluster.status with phase := EtcdClusterPhase.creating }, none) ∧
    (Status sampleImportedCluster
        ⟨[], some "probe failed", [], [], EtcdClusterPhase.unknown⟩).2 =
      some "probe failed" :=
  ⟨(status_creating_early_return sampleTLSCluster).1 rfl (some "probe failed")
      ["m0"] [⟨"m0", true⟩] EtcdClusterPhase.running,
   (status_creating_early_return sampleImportedCluster).2
      ⟨[], some "probe failed", [], [], EtcdClusterPhase.unknown⟩
      (Or.inr (by decide))⟩

def samplePlainCluster : EtcdCluster :=
  { sampleTLSCluster with annotations := [("scheme", "http")] }

def sampleNoSANsCluster : EtcdCluster :=
  { sampleTLSCluster with annotations := [("scheme", "https")] }

def sampleEmptySANsCluster : EtcdCluster :=
  { sampleTLSCluster with
    annotations := [("scheme", "https"), ("extraServerCertSANs", "")] }

def sampleSpaceSANsCluster : EtcdCluster :=
  { sampleTLSCluster with
    annotations := [("scheme", "https"), ("extraServerCertSANs", "  ,  ")] }

/-- C3: with security mode tls (`scheme` annotation `https`) the synthesized
document carries the `secure.tls.autoTLSCert` subtree enabling client, peer
and server certificate generation and listing the parsed extra SANs, and the
argument list gains `client-cert-auth=true` after the base argument; with any
other scheme neither the `secure` subtree nor the extra argument appears. -/
theorem synthesis_tls_branch (c : EtcdCluster) :
    (annoGetD c.annotations "scheme" = "https" →
      Json.lookupPath (generateEtcdSpec c) ["secure", "tls", "autoTLSCert"] =
        some (Json.obj [
          ("autoGenerateClientCert", Json.bool true),
          ("autoGeneratePeerCert", Json.bool true),
          ("autoGenerateServerCert", Json.bool true),
          ("extraServerCertSANs",
            if (parseSANs (annoGetD c.annotations "extraServerCertSANs")).isEmpty
            then Json.null
            else Json.arr
              ((parseSANs (annoGetD c.annotations "extraServerCertSANs")).map
                Json.str))]) ∧
      Json.lookupPath (generateEtcdSpec c) ["template", "extraArgs"] =
        some (Json.arr [Json.str "logger=zap", Json.str "client-cert-auth=true"])) ∧
    (annoGetD c.annotations "scheme" ≠ "https" →
      Json.lookupPath (generateEtcdSpec c) ["secure"] = none ∧
      Json.lookupPath (generateEtcdSpec c) ["template", "extraArgs"] =
        some (Json.arr [Json.str "logger=zap"])) := by
  constructor
  · intro h
    constructor <;>
      simp [generateEtcdSpec, h, Json.setKey, setEntry, Json.modifyKey,
        modifyEntry, Json.lookupPath, lookupKey]
  · intro h
    constructor <;>
      simp [generateEtcdSpec, h, Json.lookupPath, lookupKey]

theorem synthesis_tls_branch_witness :
    Json.lookupPath (generateEtcdSpec sampleTLSCluster)
        ["secure", "tls", "autoTLSCert"] =
      some (Json.obj [
        ("autoGenerateClientCert", Json.bool true),
        ("autoGeneratePeerCert", Json.bool true),
        ("autoGenerateServerCert", Json.bool true),
        ("extraServerCertSANs",
          Json.arr [Json.str "a.example.com", Json.str "b.example.com"])]) ∧
    Json.lookupPath (generateEtcdSpec sampleTLSCluster) ["template", "extraArgs"] =
      some (Json.arr [Json.str "logger=zap", Json.str "client-cert-auth=true"]) ∧
    Json.lookupPath (generateEtcdSpec samplePlainCluster) ["secure"] = none ∧
    Json.lookupPath (generateEtcdSpec samplePlainCluster) ["template", "extraArgs"] =
      some (Json.arr [Json.str "logger=zap"]) := by
  have h1 := (synthesis_tls_branch sampleTLSCluster).1 rfl
  have h2 := (synthesis_tls_branch samplePlainCluster).2 (by decide)
  exact ⟨by rw [h1.1]; rfl, h1.2, h2.1, h2.2⟩

/-- The keys of the `template.annotations` subtree, used to distinguish two
synthesized documents. -/
def annotationKeysOf (j : Json) : List String :=
  match j.lookupPath ["template", "annotations"] with
  | some (Json.obj fs) => fs.map Prod.fst
  | _ => []

/-- C6 counterexample: an unset `extraServerCertSANs` annotation and one set
to the empty string do not produce the same document, because the cluster's
annotation map is copied wholesale into `template.annotations`; the two
documents differ there even though both SAN parses are empty. -/
theorem sans_unset_vs_empty_document_counterexample :
    parseSANs (annoGetD sampleNoSANsCluster.annotations "extraServerCertSANs") = [] ∧
    parseSANs (annoGetD sampleEmptySANsCluster.annotations "extraServerCertSANs") = [] ∧
    generateEtcdSpec sampleNoSANsCluster ≠ generateEtcdSpec sampleEmptySANsCluster := by
  refine ⟨rfl, rfl, ?_⟩
  intro h
  exact absurd (congrArg annotationKeysOf h) (by decide)

/-- C6 (amended): the SAN annotation is split on commas, each entry trimmed,
empty entries dropped, and an empty result is emitted as an absent (null) SAN
field rather than an empty list — so an unset annotation and an empty or
whitespace-only annotation produce the same absent SAN field (the full
documents still differ in the copied `template.annotations` map). -/
theorem sans_empty_collapses_to_absent (c : EtcdCluster)
    (h : annoGetD c.annotations "scheme" = "https") :
    Json.lookupPath (generateEtcdSpec c)
      ["secure", "tls", "autoTLSCert", "extraServerCertSANs"] =
      some (if (parseSANs (annoGetD c.annotations "extraServerCertSANs")).isEmpty
        then Json.null
        else Json.arr
          ((parseSANs (annoGetD c.annotations "extraServerCertSANs")).map
            Json.str)) ∧
    (parseSANs (annoGetD c.annotations "extraServerCertSANs") = [] →
      Json.lookupPath (generateEtcdSpec c)
        ["secure", "tls", "autoTLSCert", "extraServerCertSANs"] =
        some Json.null) := by
  have hmain : Json.lookupPath (generateEtcdSpec c)
      ["secure", "tls", "autoTLSCert", "extraServerCertSANs"] =
      some (if (parseSANs (annoGetD c.annotations "extraServerCertSANs")).isEmpty
        then Json.null
        else Json.arr
          ((parseSANs (annoGetD c.annotations "extraServerCertSANs")).map
            Json.str)) := by
    simp [generateEtcdSpec, h, Json.setKey, setEntry, Json.modifyKey,
      modifyEntry, Json.lookupPath, lookupKey]
  refine ⟨hmain, fun hempty => ?_⟩
  rw [hmain, hempty]
  rfl

theorem sans_empty_collapses_to_absent_witness :
    Json.lookupPath (generateEtcdSpec sampleNoSANsCluster)
      ["secure", "tls", "autoTLSCert", "extraServerCertSANs"] = some Json.null ∧
    Json.lookupPath (generateEtcdSpec sampleEmptySANsCluster)
      ["secure", "tls", "autoTLSCert", "extraServerCertSANs"] = some Json.null ∧
    Json.lookupPath (generateEtcdSpec sampleSpaceSANsCluster)
      ["secure", "tls", "autoTLSCert", "extraServerCertSANs"] = some Json.null :=
  ⟨(sans_empty_collapses_to_absent sampleNoSANsCluster rfl).2 rfl,
   (sans_empty_collapses_to_absent sampleEmptySANsCluster rfl).2 rfl,
   (sans_empty_collapses_to_absent sampleSpaceSANsCluster rfl).2 rfl⟩

theorem toDigitsCore_succ (b f n : Nat) (ds : List Char) :
    Nat.toDigitsCore b (f + 1) n ds =
      if n / b = 0 then Nat.digitChar (n % b) :: ds
      else Nat.toDigitsCore b f (n / b) (Nat.digitChar (n % b) :: ds) := by
  rfl

theorem toDigitsCore_append (b : Nat) :
    ∀ (fuel n : Nat) (ds : List Char),
      ∃ l : List Char, Nat.toDigitsCore b fuel n ds = l ++ ds := by
  intro fuel
  induction fuel with
  | zero => exact fun n ds => ⟨[], rfl⟩
  | succ f ih =>
    intro n ds
    rw [toDigitsCore_succ]
    by_cases h : n / b = 0
    · rw [if_pos h]
      exact ⟨[Nat.digitChar (n % b)], rfl⟩
    · rw [if_neg h]
      obtain ⟨l, hl⟩ := ih (n / b) (Nat.digitChar (n % b) :: ds)
      exact ⟨l ++ [Nat.digitChar (n % b)], by rw [hl, List.append_assoc]; rfl⟩

theorem digitChar_not_Gi : ∀ m : Nat, isGiChar (Nat.digitChar m) = false
  | 0 => rfl
  | 1 => rfl
  | 2 => rfl
  | 3 => rfl
  | 4 => rfl
  | 5 => rfl
  | 6 => rfl
  | 7 => rfl
  | 8 => rfl
  | 9 => rfl
  | 10 => rfl
  | 11 => rfl
  | 12 => rfl
  | 13 => rfl
  | 14 => rfl
  | 15 => rfl
  | _ + 16 => rfl

theorem repr_ends_with_digit (n : Nat) :
    ∃ l : List Char, (Nat.repr n).data = l ++ [Nat.digitChar (n % 10)] := by
  unfold Nat.repr Nat.toDigits
  rw [toDigitsCore_succ]
  by_cases h : n / 10 = 0
  · rw [if_pos h]
    exact ⟨[], rfl⟩
  · rw [if_neg h]
    obtain ⟨l, hl⟩ := toDigitsCore_append 10 n (n / 10) [Nat.digitChar (n % 10)]
    exact ⟨l, by rw [List.asString, hl]⟩

theorem trimRightGi_repr_roundtrip (n : Nat) :
    trimRightGi (Nat.repr n ++ "Gi") = Nat.repr n := by
  obtain ⟨l, hl⟩ := repr_ends_with_digit n
  have happ : (Nat.repr n ++ "Gi").data = (Nat.repr n).data ++ ['G', 'i'] := rfl
  have hd := digitChar_not_Gi (n % 10)
  unfold trimRightGi
  rw [happ, hl]
  have hrev : ((l ++ [Nat.digitChar (n % 10)]) ++ ['G', 'i']).reverse =
      'i' :: 'G' :: Nat.digitChar (n % 10) :: l.reverse := by
    simp
  rw [hrev]
  have hdrop : List.dropWhile isGiChar
      ('i' :: 'G' :: Nat.digitChar (n % 10) :: l.reverse) =
      Nat.digitChar (n % 10) :: l.reverse := by
    simp [List.dropWhile_cons, hd, show isGiChar 'i' = true from rfl,
      show isGiChar 'G' = true from rfl]
  rw [hdrop]
  have hback : (Nat.digitChar (n % 10) :: l.reverse).reverse =
      l ++ [Nat.digitChar (n % 10)] := by
    simp
  rw [hback, ← hl]

/-- C7: the synthesized document renders the memory and disk quantities as
the decimal string with the `Gi` suffix, the cpu quantity as the bare decimal
string, and stripping the `Gi` suffix the way the drift detector does recovers
the decimal rendering of the original integer. -/
theorem synthesis_unit_round_trip (c : EtcdCluster) :
    Json.lookupPath (generateEtcdSpec c)
      ["template", "resources", "requests", "memory"] =
      some (Json.str (Nat.repr c.spec.totalMem ++ "Gi")) ∧
    Json.lookupPath (generateEtcdSpec c)
      ["template", "persistentVolumeClaimSpec", "resources", "requests", "storage"] =
      some (Json.str (Nat.repr c.spec.diskSize ++ "Gi")) ∧
    Json.lookupPath (generateEtcdSpec c)
      ["template", "resources", "requests", "cpu"] =
      some (Json.str (Nat.repr c.spec.totalCpu)) ∧
    trimRightGi (Nat.repr c.spec.totalMem ++ "Gi") = Nat.repr c.spec.totalMem ∧
    trimRightGi (Nat.repr c.spec.diskSize ++ "Gi") = Nat.repr c.spec.diskSize := by
  refine ⟨?_, ?_, ?_, trimRightGi_repr_roundtrip _, trimRightGi_repr_roundtrip _⟩
  all_goals
    by_cases h : annoGetD c.annotations "scheme" = "https" <;>
      simp [generateEtcdSpec, h, Json.setKey, setEntry, Json.modifyKey,
        modifyEntry, Json.lookupPath, lookupKey]

end Kstone
